import Mathlib

/-!
Shallow embedding of the discord-weather-bot core: the rate-gated NWS API
client (`src/nws.py`) and the per-feature alert classifier embedded in the
`getwarnings` command (`src/main.py`).

Strings are modelled as `List Char`; Python's `str.lower` is `lowerStr`,
`in` is `containsSub`, and the three regular expressions used by the source
(`([a-zA-Z]+\d+)`, `(.+ watch|.+ warning)`, `(warning|emergency)`) are
modelled by executable search functions that mirror `re.search` semantics:
leftmost starting position wins, alternatives are tried left to right at
each position, `+` is greedy, and `.` matches any character except a
newline.

Timestamps (`time.time()` values) are modelled as rationals; HTTP traffic
and the geolocation-database row are oracle parameters, so each client
operation is a pure function of its state, the clock, and the oracle.
Python exception semantics are preserved: the source's error classes
derive from `BaseException`, so the `except Exception` handlers do NOT
intercept `UnknownError` / `APIError` raised inside the `try` blocks.
-/

/-- Python `str.lower`, character by character. -/
def lowerStr (l : List Char) : List Char := l.map Char.toLower

/-- Python substring test `pat in s`. -/
def containsSub (pat : List Char) : List Char → Bool
  | [] => pat.isEmpty
  | c :: rest => pat.isPrefixOf (c :: rest) || containsSub pat rest

/-- Index of the first occurrence of `pat` in `s` (Python `s.find(pat)` when
it succeeds). -/
def idxOfSub (pat : List Char) : List Char → Option Nat
  | [] => if pat.isEmpty then some 0 else none
  | c :: rest =>
    if pat.isPrefixOf (c :: rest) then some 0
    else (idxOfSub pat rest).map (· + 1)

/-- Character class `[a-zA-Z]` of the county-id regular expression. -/
def isAsciiLetter (c : Char) : Bool :=
  ('a' ≤ c && c ≤ 'z') || ('A' ≤ c && c ≤ 'Z')

/-- Character class `\d` (ASCII digits, which is all the upstream data uses). -/
def isAsciiDigit (c : Char) : Bool :=
  '0' ≤ c && c ≤ '9'

/-- Model of `re.search(r"([a-zA-Z]+\d+)", s)` from `NWS.countyid_from_city`:
the leftmost maximal run of letters immediately followed by at least one
digit, returned together with the greedy digit run (`match.group(0)`).
Because the two character classes are disjoint, greedy matching needs no
backtracking, and a failed attempt inside a letter run fails at every later
position of the same run, so advancing one character at a time is faithful. -/
def reSearchToken : List Char → Option (List Char)
  | [] => none
  | c :: rest =>
    if isAsciiLetter c then
      if (((c :: rest).dropWhile isAsciiLetter).takeWhile isAsciiDigit).isEmpty then
        reSearchToken rest
      else
        some ((c :: rest).takeWhile isAsciiLetter ++
          ((c :: rest).dropWhile isAsciiLetter).takeWhile isAsciiDigit)
    else reSearchToken rest

/-- True when the list has no newline character: Python's `.` does not match
`\n`. -/
def noNewline (l : List Char) : Bool := l.all (fun c => c ≠ '\n')

/-- Greedy match of `.+ <pat>` against the whole of `s` anchored at its
start: the largest `j ≥ 1` such that `pat` occurs at offset `j` and the `j`
consumed characters contain no newline; the result is `match.group(0)`. -/
def dotPlusMatch (pat s : List Char) : Option (List Char) :=
  (((List.range (s.length + 1)).filter
      (fun j => decide (1 ≤ j) && pat.isPrefixOf (s.drop j) && noNewline (s.take j))).getLast?).map
    (fun j => s.take j ++ pat)

/-- Model of `re.search(r"(.+ watch|.+ warning)", s)` from the alert
classifier: at each starting position, first try the greedy `.+ watch`
alternative, then `.+ warning`; the first position with a match wins. -/
def searchWatchWarning : List Char → Option (List Char)
  | [] => none
  | c :: rest =>
    match dotPlusMatch " watch".toList (c :: rest) with
    | some m => some m
    | none =>
      match dotPlusMatch " warning".toList (c :: rest) with
      | some m => some m
      | none => searchWatchWarning rest

/-- Literal alternative `warning` of the severity regular expression. -/
def warningLit : List Char := ['w', 'a', 'r', 'n', 'i', 'n', 'g']

/-- Literal alternative `emergency` of the severity regular expression. -/
def emergencyLit : List Char := ['e', 'm', 'e', 'r', 'g', 'e', 'n', 'c', 'y']

/-- Model of `re.search(r"(warning|emergency)", s)` from the tornado branch
of the classifier: the matched text is whichever literal occurs first,
trying `warning` before `emergency` at each position. -/
def searchWarnEmerg : List Char → Option (List Char)
  | [] => none
  | c :: rest =>
    if warningLit.isPrefixOf (c :: rest) then some warningLit
    else if emergencyLit.isPrefixOf (c :: rest) then some emergencyLit
    else searchWarnEmerg rest

/-- Spec-level reformulation used by the amended tornado-emergency claim:
`s` contains `emergency` and its first occurrence comes before every
occurrence of `warning`. -/
def emergencyFirst (s : List Char) : Bool :=
  match idxOfSub emergencyLit s, idxOfSub warningLit s with
  | some ie, some iw => decide (ie < iw)
  | some _, none => true
  | none, _ => false

/-- One element of the `features` array of the active-alerts response, with
the fields the `getwarnings` handler reads. `parameters` is the JSON
`properties.parameters` object: an association list from parameter name to
its list of string values. -/
structure AlertFeature where
  onset : List Char
  expires : List Char
  headline : List Char
  description : List Char
  parameters : List (List Char × List (List Char))
deriving DecidableEq

/-- First-match lookup in the `parameters` object (Python `dict.get`). -/
def lookupParam : List (List Char × List (List Char)) → List Char → Option (List (List Char))
  | [], _ => none
  | (k', v) :: rest, k => if k' = k then some v else lookupParam rest k

/-- Python `parameters.get(key, dflt)[0]`: `none` models the `IndexError`
raised when the selected list of values is empty. -/
def paramFirst (ps : List (List Char × List (List Char))) (k : List Char)
    (dflt : List (List Char)) : Option (List Char) :=
  ((lookupParam ps k).getD dflt).head?

/-- Severity flags computed per feature by `slash_getwarnings`. -/
structure Flags where
  pds_tor : Bool
  emergency_tor : Bool
  destructive_tstorm : Bool
  emergency_flood : Bool
deriving DecidableEq

/-- Number of severity flags that are set. -/
def flagCount (fl : Flags) : Nat :=
  (cond fl.pds_tor 1 0) + (cond fl.emergency_tor 1 0) +
    (cond fl.destructive_tstorm 1 0) + (cond fl.emergency_flood 1 0)

/-- The flag-computation portion of `slash_getwarnings` (main.py lines
200-232), one feature at a time. `none` models the `IndexError` Python
raises when a `parameters` value list is present but empty. -/
def classifyFlags (f : AlertFeature) : Option Flags :=
  match searchWatchWarning (lowerStr f.headline) with
  | none => some ⟨false, false, false, false⟩
  | some at0 =>
    if containsSub "tornado".toList (lowerStr at0) then
      if containsSub "particularly dangerous situation".toList (lowerStr f.description) then
        some ⟨true, false, false, false⟩
      else
        match paramFirst f.parameters "NWSheadline".toList [[]] with
        | none => none
        | some v =>
          match searchWarnEmerg (lowerStr v) with
          | none => some ⟨false, false, false, false⟩
          | some m =>
            if containsSub emergencyLit (lowerStr m) then some ⟨false, true, false, false⟩
            else some ⟨false, false, false, false⟩
    else if containsSub "severe thunderstorm".toList (lowerStr at0) then
      match paramFirst f.parameters "damageThreat".toList ["Unknown".toList] with
      | none => none
      | some dt =>
        if lowerStr dt = "destructive".toList then some ⟨false, false, true, false⟩
        else some ⟨false, false, false, false⟩
    else if containsSub "flash flood".toList (lowerStr at0) then
      match paramFirst f.parameters "NWSheadline".toList [[]] with
      | none => none
      | some v =>
        if containsSub "flash flood emergency".toList (lowerStr v) ||
            containsSub "flash flood emergency".toList f.description then
          some ⟨false, false, false, true⟩
        else some ⟨false, false, false, false⟩
    else some ⟨false, false, false, false⟩

/-- Embed color chosen by `slash_getwarnings` (main.py lines 234-242). -/
def embedColor (fl : Flags) : Nat :=
  if fl.pds_tor || fl.emergency_tor then 0x800080
  else if fl.destructive_tstorm then 0xffa500
  else if fl.emergency_flood then 0x0000ff
  else 0xff0019

/-- Embed title tier chosen by `slash_getwarnings` (main.py lines 244-253);
the constructors name the override tiers, `original` carries the unchanged
headline. -/
inductive EmbedTitle where
  | tornadoEmergency
  | pdsTornado
  | destructiveStorm
  | floodEmergency
  | original (headline : List Char)
deriving DecidableEq

/-- Title selection of `slash_getwarnings`: an if/elif chain evaluated in
the order `emergency_tor`, `pds_tor`, `destructive_tstorm`,
`emergency_flood`, with the raw headline as the fallback. -/
def embedTitle (fl : Flags) (headline : List Char) : EmbedTitle :=
  if fl.emergency_tor then .tornadoEmergency
  else if fl.pds_tor then .pdsTornado
  else if fl.destructive_tstorm then .destructiveStorm
  else if fl.emergency_flood then .floodEmergency
  else .original headline

/-- The classified record built per feature: embed title, description,
color, and the event-detail fields. -/
structure ClassifiedAlert where
  title : EmbedTitle
  description : List Char
  color : Nat
  onset : List Char
  expires : List Char
deriving DecidableEq

/-- Full per-feature classification pipeline of `slash_getwarnings`. -/
def classifyAlert (f : AlertFeature) : Option ClassifiedAlert :=
  (classifyFlags f).map fun fl =>
    ⟨embedTitle fl f.headline, f.description, embedColor fl, f.onset, f.expires⟩

/-- Error taxonomy of `src/nws.py`. All three classes derive from Python's
`BaseException`, so none of them is caught by an `except Exception`
handler. -/
inductive NWSError where
  | rateLimitError (wait_time : ℚ)
  | apiError (status_code : Nat)
  | unknownError (message : String)
deriving DecidableEq

/-- The mutable fields of the `NWS` instance that the claims are about.
The asyncio stop event and the background timer task are diagnostics only
and carry no data the gating decision reads. -/
structure NWSState where
  elapsed_seconds : ℚ
  last_request_time : ℚ
  request_cooldown : ℚ
deriving DecidableEq

/-- Field values set by `NWS.__init__`. -/
def NWS_init : NWSState := ⟨0, 0, 10⟩

/-- Model of `NWS.__check_time` at clock value `now`: if the time since
`last_request_time` is below the cooldown, raise `RateLimitError` with the
remaining wait and mutate nothing; otherwise permit the call, resetting the
diagnostic elapsed counter. -/
def checkTime (s : NWSState) (now : ℚ) : Except NWSError NWSState :=
  if now - s.last_request_time < s.request_cooldown then
    .error (.rateLimitError (s.request_cooldown - (now - s.last_request_time)))
  else
    .ok { s with elapsed_seconds := 0 }

/-- Oracle for one `requests.get` call: either the call itself raised a
(`Exception`-derived) network error with message `msg`, or a response with
a status code arrived whose body parses to `α` or fails with an exception
message (covering `.json()` errors and missing JSON keys). -/
inductive HttpResult (α : Type) where
  | netError (msg : String)
  | resp (status : Nat) (body : Except String α)

/-- Message of the `UnknownError` raised by the `except Exception`
handlers. -/
def generic_parse_msg : String :=
  "Could not parse NWS API response. Please contact dev to check error logs"

/-- Message of the `UnknownError` raised when the county-id regular
expression finds no token in a 200 response. -/
def county_not_found_msg : String := "County ID not found in API response."

/-- Observable outcome of one `countyid_from_city` call: the returned
county id or the raised error, the final field state, and the lines
appended to `api_err_log.txt` (modulo timestamp prefix). -/
structure CountyOutcome where
  result : Except NWSError (List Char)
  state : NWSState
  logLines : List String

/-- Model of `NWS.countyid_from_city`. `row` is the geolocation-database
row for (`city_name`, `state_code`), `http` the points-endpoint call, and
`now2` the clock value when the 200 status is observed. Control flow
mirrors the source exactly: the rate gate runs first; a missing row raises
`UnknownError` before any HTTP call; on status 200 `last_request_time` is
updated BEFORE the body is parsed; `APIError` and the extraction-miss
`UnknownError` escape the `except Exception` handler uncaught (they derive
from `BaseException`), so only network/parse exceptions are logged and
replaced by the generic message. -/
def countyid_from_city (s : NWSState) (now : ℚ) (city_name state_code : String)
    (row : Option (ℚ × ℚ)) (http : HttpResult (List Char)) (now2 : ℚ) : CountyOutcome :=
  match checkTime s now with
  | .error e => ⟨.error e, s, []⟩
  | .ok s1 =>
    match row with
    | none =>
      ⟨.error (.unknownError
        (city_name ++ ", " ++ state_code ++ " not found in geolocation database")), s1, []⟩
    | some _ =>
      match http with
      | .netError msg => ⟨.error (.unknownError generic_parse_msg), s1, [msg]⟩
      | .resp status body =>
        if status = 200 then
          match body with
          | .error msg =>
            ⟨.error (.unknownError generic_parse_msg),
              { s1 with last_request_time := now2 }, [msg]⟩
          | .ok county =>
            match reSearchToken county with
            | none =>
              ⟨.error (.unknownError county_not_found_msg),
                { s1 with last_request_time := now2 }, []⟩
            | some tok => ⟨.ok tok, { s1 with last_request_time := now2 }, []⟩
        else ⟨.error (.apiError status), s1, []⟩

/-- Parsed body of an active-alerts response: the `features` array when
present (`none` models a JSON object with no `features` key; the handler
in `main.py` checks for that case itself). -/
structure AlertsBody where
  features : Option (List AlertFeature)
deriving DecidableEq

/-- Message of the `UnknownError` raised by `check_active_alerts` when
neither argument is supplied. -/
def no_args_msg : String :=
  "You must provide an argument in the form of a state code or county code"

/-- Message of the `UnknownError` raised by `check_active_alerts` when both
arguments are supplied. -/
def both_args_msg : String := "You may only provide one argument"

/-- Observable outcome of one `check_active_alerts` call, additionally
recording how many HTTP requests were attempted and whether the rate-gate
check (`__check_time`) ran. -/
structure AlertsOutcome where
  result : Except NWSError AlertsBody
  state : NWSState
  logLines : List String
  httpCalls : Nat
  rateChecked : Bool

/-- Model of `NWS.check_active_alerts`. Argument validation precedes the
rate-gate check and any HTTP traffic; the two fetch branches (state area
versus county zone) are textually identical in the source apart from the
URL, which the `http` oracle abstracts. On status 200 the parsed body is
returned verbatim, with `last_request_time` updated before parsing;
`APIError` escapes the `except Exception` handler uncaught. -/
def check_active_alerts (s : NWSState) (now : ℚ)
    (state_code county_code : Option String)
    (http : HttpResult AlertsBody) (now2 : ℚ) : AlertsOutcome :=
  match state_code, county_code with
  | none, none => ⟨.error (.unknownError no_args_msg), s, [], 0, false⟩
  | some _, some _ => ⟨.error (.unknownError both_args_msg), s, [], 0, false⟩
  | _, _ =>
    match checkTime s now with
    | .error e => ⟨.error e, s, [], 0, true⟩
    | .ok s1 =>
      match http with
      | .netError msg => ⟨.error (.unknownError generic_parse_msg), s1, [msg], 1, true⟩
      | .resp status body =>
        if status = 200 then
          match body with
          | .error msg =>
            ⟨.error (.unknownError generic_parse_msg),
              { s1 with last_request_time := now2 }, [msg], 1, true⟩
          | .ok b => ⟨.ok b, { s1 with last_request_time := now2 }, [], 1, true⟩
        else ⟨.error (.apiError status), s1, [], 1, true⟩

/-- Helper: when the cooldown has elapsed, the rate gate permits the call
and only resets the diagnostic elapsed counter. -/
theorem checkTime_pass (s : NWSState) (now : ℚ)
    (h : s.request_cooldown ≤ now - s.last_request_time) :
    checkTime s now = .ok { s with elapsed_seconds := 0 } := by
  rw [checkTime, if_neg (not_lt.2 h)]

/-- Helper: the two literal alternatives of `(warning|emergency)` cannot
both be prefixes of the same text (their first characters differ). -/
theorem warn_emerg_not_both (l : List Char) (hw : warningLit.isPrefixOf l = true)
    (he : emergencyLit.isPrefixOf l = true) : False := by
  cases l with
  | nil => simp [warningLit, List.isPrefixOf] at hw
  | cons c cs =>
    simp only [warningLit, emergencyLit, List.isPrefixOf, Bool.and_eq_true, beq_iff_eq] at hw he
    rw [← hw.1] at he
    exact absurd he.1 (by decide)

/-- Helper: the text matched by `(warning|emergency)` is one of the two
literals. -/
theorem searchWarnEmerg_eq_some (s m : List Char) (h : searchWarnEmerg s = some m) :
    m = warningLit ∨ m = emergencyLit := by
  induction s with
  | nil => simp [searchWarnEmerg] at h
  | cons c cs ih =>
    unfold searchWarnEmerg at h
    split at h
    · exact Or.inl (Option.some_inj.mp h).symm
    · split at h
      · exact Or.inr (Option.some_inj.mp h).symm
      · exact ih h

/-- Helper: `(warning|emergency)` matches the literal `emergency` exactly
when `emergency` occurs in the text strictly before every occurrence of
`warning`. -/
theorem searchWarnEmerg_emergency_iff (s : List Char) :
    searchWarnEmerg s = some emergencyLit ↔ emergencyFirst s = true := by
  induction s with
  | nil => decide
  | cons c cs ih =>
    by_cases hw : warningLit.isPrefixOf (c :: cs) = true
    · have he : ¬emergencyLit.isPrefixOf (c :: cs) = true :=
        fun he => warn_emerg_not_both _ hw he
      have h1 : searchWarnEmerg (c :: cs) = some warningLit := by
        simp only [searchWarnEmerg]; rw [if_pos hw]
      have h2 : idxOfSub warningLit (c :: cs) = some 0 := by
        simp only [idxOfSub]; rw [if_pos hw]
      have h3 : idxOfSub emergencyLit (c :: cs) = (idxOfSub emergencyLit cs).map (· + 1) := by
        simp only [idxOfSub]; rw [if_neg he]
      rw [h1, emergencyFirst, h2, h3]
      constructor
      · intro h
        exact absurd (Option.some_inj.mp h) (by decide)
      · intro h
        rcases hx : idxOfSub emergencyLit cs with _ | k <;> rw [hx] at h <;> simp at h
    · by_cases he : emergencyLit.isPrefixOf (c :: cs) = true
      · have h1 : searchWarnEmerg (c :: cs) = some emergencyLit := by
          simp only [searchWarnEmerg]; rw [if_neg hw, if_pos he]
        have h2 : idxOfSub emergencyLit (c :: cs) = some 0 := by
          simp only [idxOfSub]; rw [if_pos he]
        have h3 : idxOfSub warningLit (c :: cs) = (idxOfSub warningLit cs).map (· + 1) := by
          simp only [idxOfSub]; rw [if_neg hw]
        rw [h1, emergencyFirst, h2, h3]
        constructor
        · intro _
          rcases hx : idxOfSub warningLit cs with _ | k <;> simp
        · intro _
          rfl
      · have h1 : searchWarnEmerg (c :: cs) = searchWarnEmerg cs := by
          simp only [searchWarnEmerg]; rw [if_neg hw, if_neg he]
        have h2 : idxOfSub emergencyLit (c :: cs) = (idxOfSub emergencyLit cs).map (· + 1) := by
          simp only [idxOfSub]; rw [if_neg he]
        have h3 : idxOfSub warningLit (c :: cs) = (idxOfSub warningLit cs).map (· + 1) := by
          simp only [idxOfSub]; rw [if_neg hw]
        rw [h1, emergencyFirst, h2, h3]
        rw [emergencyFirst] at ih
        rcases hx : idxOfSub emergencyLit cs with _ | ie <;>
          rcases hy : idxOfSub warningLit cs with _ | iw <;>
          rw [hx, hy] at ih <;> simp_all

/-- C1: for every cooldown and elapsed time `e = now - last_request_time`,
the rate-gate check with `e < cooldown` fails with `RateLimitError` whose
remaining wait is `cooldown - e` and leaves all rate-gate state (in
particular `last_request_time`) unchanged in the enclosing operations,
while `e ≥ cooldown` permits the call. -/
theorem rate_gate_check_behavior (s : NWSState) (now : ℚ) :
    (now - s.last_request_time < s.request_cooldown →
      checkTime s now =
        .error (.rateLimitError (s.request_cooldown - (now - s.last_request_time))) ∧
      (∀ sc http now2,
        (check_active_alerts s now (some sc) none http now2).result =
          .error (.rateLimitError (s.request_cooldown - (now - s.last_request_time))) ∧
        (check_active_alerts s now (some sc) none http now2).state = s) ∧
      (∀ city st row http now2,
        (countyid_from_city s now city st row http now2).state = s)) ∧
    (s.request_cooldown ≤ now - s.last_request_time →
      ∃ s1, checkTime s now = .ok s1 ∧ s1.last_request_time = s.last_request_time) := by
  constructor
  · intro h
    have hc : checkTime s now =
        .error (.rateLimitError (s.request_cooldown - (now - s.last_request_time))) := by
      rw [checkTime, if_pos h]
    refine ⟨hc, ?_, ?_⟩
    · intro sc http now2
      constructor <;> simp [check_active_alerts, hc]
    · intro city st row http now2
      simp [countyid_from_city, hc]
  · intro h
    exact ⟨{ s with elapsed_seconds := 0 }, checkTime_pass s now h, rfl⟩

/-- Witness for C1 at cooldown 10: a call 4 seconds after the last request
fails with 6 seconds of remaining wait, and a call 25 seconds after it is
permitted with `last_request_time` untouched. -/
theorem rate_gate_check_behavior_witness :
    checkTime ⟨0, 0, 10⟩ 4 = .error (.rateLimitError 6) ∧
    (∃ s1, checkTime ⟨0, 0, 10⟩ 25 = .ok s1 ∧ s1.last_request_time = 0) := by
  constructor
  · have h := ((rate_gate_check_behavior ⟨0, 0, 10⟩ 4).1 (by norm_num)).1
    norm_num at h
    exact h
  · exact (rate_gate_check_behavior ⟨0, 0, 10⟩ 25).2 (by norm_num)

/-- C10: a freshly constructed client has `last_request_time = 0`, so the
first rate-gate check is permitted whenever the clock value is at least the
cooldown. -/
theorem fresh_client_first_call (now : ℚ) (h : NWS_init.request_cooldown ≤ now) :
    NWS_init.last_request_time = 0 ∧ ∃ s1, checkTime NWS_init now = .ok s1 := by
  refine ⟨rfl, { NWS_init with elapsed_seconds := 0 }, ?_⟩
  apply checkTime_pass
  simpa [NWS_init] using h

/-- Witness for C10 at clock value 100. -/
theorem fresh_client_first_call_witness :
    NWS_init.last_request_time = 0 ∧ ∃ s1, checkTime NWS_init 100 = .ok s1 :=
  fresh_client_first_call 100 (by norm_num [NWS_init])

/-- C4: `check_active_alerts` with both region arguments or with neither
fails with `UnknownError` while performing no HTTP request and without ever
reaching the rate-gate check, regardless of the gate state. -/
theorem fetch_alerts_arg_validation (s : NWSState) (now : ℚ)
    (http : HttpResult AlertsBody) (now2 : ℚ) :
    check_active_alerts s now none none http now2 =
      ⟨.error (.unknownError no_args_msg), s, [], 0, false⟩ ∧
    ∀ sc cc, check_active_alerts s now (some sc) (some cc) http now2 =
      ⟨.error (.unknownError both_args_msg), s, [], 0, false⟩ :=
  ⟨rfl, fun _ _ => rfl⟩

/-- C7: every non-200 status from either endpoint surfaces as `APIError`
carrying exactly that status code, for both client operations (the
`except Exception` handler does not intercept it). -/
theorem non_200_yields_api_error (s : NWSState) (now now2 : ℚ) (status : Nat)
    (h200 : status ≠ 200) (hgate : s.request_cooldown ≤ now - s.last_request_time) :
    (∀ city st lat lon body,
      (countyid_from_city s now city st (some (lat, lon)) (.resp status body) now2).result =
        .error (.apiError status)) ∧
    (∀ sc body,
      (check_active_alerts s now (some sc) none (.resp status body) now2).result =
        .error (.apiError status)) ∧
    (∀ cc body,
      (check_active_alerts s now none (some cc) (.resp status body) now2).result =
        .error (.apiError status)) := by
  have hc := checkTime_pass s now hgate
  refine ⟨?_, ?_, ?_⟩ <;> intros <;>
    simp [countyid_from_city, check_active_alerts, hc, h200]

/-- Witness for C7: a 503 from the points endpoint and from both alert
endpoints is reported as `APIError 503`. -/
theorem non_200_yields_api_error_witness :
    (countyid_from_city ⟨0, 0, 10⟩ 20 "Lansing" "MI" (some (42, -84))
      (.resp 503 (.ok "MIC065".toList)) 21).result = .error (.apiError 503) ∧
    (check_active_alerts ⟨0, 0, 10⟩ 20 (some "MI") none
      (.resp 503 (.ok ⟨none⟩)) 21).result = .error (.apiError 503) ∧
    (check_active_alerts ⟨0, 0, 10⟩ 20 none (some "MIC065")
      (.resp 503 (.ok ⟨none⟩)) 21).result = .error (.apiError 503) :=
  ⟨(non_200_yields_api_error ⟨0, 0, 10⟩ 20 21 503 (by decide) (by norm_num)).1
      "Lansing" "MI" 42 (-84) (.ok "MIC065".toList),
   (non_200_yields_api_error ⟨0, 0, 10⟩ 20 21 503 (by decide) (by norm_num)).2.1
      "MI" (.ok ⟨none⟩),
   (non_200_yields_api_error ⟨0, 0, 10⟩ 20 21 503 (by decide) (by norm_num)).2.2
      "MIC065" (.ok ⟨none⟩)⟩

/-- C8: on a 200 response `check_active_alerts` returns the parsed body —
and hence its feature list — verbatim, for both region selectors and for
every body, including one with an empty or missing `features` array, which
is therefore not an error. -/
theorem fetch_alerts_success_verbatim (s : NWSState) (now now2 : ℚ)
    (hgate : s.request_cooldown ≤ now - s.last_request_time) :
    (∀ sc body,
      (check_active_alerts s now (some sc) none (.resp 200 (.ok body)) now2).result =
        .ok body) ∧
    (∀ cc body,
      (check_active_alerts s now none (some cc) (.resp 200 (.ok body)) now2).result =
        .ok body) := by
  have hc := checkTime_pass s now hgate
  constructor <;> intros <;> simp [check_active_alerts, hc]

/-- Witness for C8: a state-area fetch with an empty `features` array and a
zone fetch with no `features` key both succeed, returning the body
verbatim. -/
theorem fetch_alerts_success_verbatim_witness :
    (check_active_alerts ⟨0, 0, 10⟩ 20 (some "MI") none
      (.resp 200 (.ok ⟨some []⟩)) 21).result = .ok ⟨some []⟩ ∧
    (check_active_alerts ⟨0, 0, 10⟩ 20 none (some "MIC065")
      (.resp 200 (.ok ⟨none⟩)) 21).result = .ok ⟨none⟩ :=
  ⟨(fetch_alerts_success_verbatim ⟨0, 0, 10⟩ 20 21 (by norm_num)).1 "MI" ⟨some []⟩,
   (fetch_alerts_success_verbatim ⟨0, 0, 10⟩ 20 21 (by norm_num)).2 "MIC065" ⟨none⟩⟩

/-- C5 counterexample: a 200 points response whose county field contains no
letters-followed-by-digits token appends NO line to the diagnostic log, and
the caller receives the detailed `UnknownError` message, not the generic
one — the raise happens outside the reach of `except Exception` because
`UnknownError` derives from `BaseException`. -/
theorem resolve_zone_no_token_counterexample :
    (countyid_from_city ⟨0, 0, 10⟩ 20 "Lansing" "MI" (some (42, -84))
      (.resp 200 (.ok "??? no token here ---".toList)) 50).logLines = [] ∧
    (countyid_from_city ⟨0, 0, 10⟩ 20 "Lansing" "MI" (some (42, -84))
      (.resp 200 (.ok "??? no token here ---".toList)) 50).result =
      .error (.unknownError county_not_found_msg) ∧
    county_not_found_msg ≠ generic_parse_msg := by
  have hc : checkTime ⟨0, 0, 10⟩ 20 = .ok ⟨0, 0, 10⟩ := by
    norm_num [checkTime]
  refine ⟨?_, ?_, by decide⟩ <;> simp only [countyid_from_city, hc] <;> rfl

/-- C5 amended: when the points request returns 200 but no county token can
be extracted, the call fails with `UnknownError` carrying the specific
"County ID not found in API response." message, and no line is appended to
the diagnostic log (the error escapes the logging handler uncaught). -/
theorem resolve_zone_no_token_uncaught (s : NWSState) (now now2 : ℚ)
    (city st : String) (lat lon : ℚ) (county : List Char)
    (hgate : s.request_cooldown ≤ now - s.last_request_time)
    (htok : reSearchToken county = none) :
    (countyid_from_city s now city st (some (lat, lon))
      (.resp 200 (.ok county)) now2).result = .error (.unknownError county_not_found_msg) ∧
    (countyid_from_city s now city st (some (lat, lon))
      (.resp 200 (.ok county)) now2).logLines = [] := by
  have hc := checkTime_pass s now hgate
  constructor <;> simp [countyid_from_city, hc, htok]

/-- Witness for the amended C5 at a concrete extraction miss. -/
theorem resolve_zone_no_token_uncaught_witness :
    (countyid_from_city ⟨0, 0, 10⟩ 30 "Detroit" "MI" (some (42, -83))
      (.resp 200 (.ok "/13,-84".toList)) 31).result =
      .error (.unknownError county_not_found_msg) ∧
    (countyid_from_city ⟨0, 0, 10⟩ 30 "Detroit" "MI" (some (42, -83))
      (.resp 200 (.ok "/13,-84".toList)) 31).logLines = [] :=
  resolve_zone_no_token_uncaught ⟨0, 0, 10⟩ 30 31 "Detroit" "MI" 42 (-83)
    "/13,-84".toList (by norm_num) (by decide)

/-- C6 counterexample: a call that fails with an error (the extraction-miss
`UnknownError`) nevertheless changes `last_request_time` from 0 to 50,
because the source updates the timestamp as soon as the 200 status is seen,
before parsing the body. -/
theorem record_success_timing_counterexample :
    (countyid_from_city ⟨0, 0, 10⟩ 20 "Lansing" "MI" (some (42, -84))
      (.resp 200 (.ok "*** nothing here ***".toList)) 50).result =
      .error (.unknownError county_not_found_msg) ∧
    (countyid_from_city ⟨0, 0, 10⟩ 20 "Lansing" "MI" (some (42, -84))
      (.resp 200 (.ok "*** nothing here ***".toList)) 50).state.last_request_time = 50 ∧
    (⟨0, 0, 10⟩ : NWSState).last_request_time ≠ 50 := by
  have hc : checkTime ⟨0, 0, 10⟩ 20 = .ok ⟨0, 0, 10⟩ := by
    norm_num [checkTime]
  refine ⟨?_, ?_, by norm_num⟩ <;> simp only [countyid_from_city, hc] <;> rfl

/-- C6 amended: `countyid_from_city` updates `last_request_time` exactly
when the points request reports status 200 (the update precedes body
parsing, so it also happens on parse and extraction failures); calls that
fail at the rate gate, at the database lookup, on a network exception, or
on a non-200 status leave it unchanged. -/
theorem record_success_timing (s : NWSState) (now now2 : ℚ) (city st : String)
    (lat lon : ℚ) :
    (s.request_cooldown ≤ now - s.last_request_time →
      (∀ body, (countyid_from_city s now city st (some (lat, lon))
        (.resp 200 body) now2).state.last_request_time = now2) ∧
      (∀ msg, (countyid_from_city s now city st (some (lat, lon))
        (.netError msg) now2).state.last_request_time = s.last_request_time) ∧
      (∀ status body, status ≠ 200 →
        (countyid_from_city s now city st (some (lat, lon))
          (.resp status body) now2).state.last_request_time = s.last_request_time) ∧
      (∀ http, (countyid_from_city s now city st none
        http now2).state.last_request_time = s.last_request_time)) ∧
    (now - s.last_request_time < s.request_cooldown →
      ∀ row http, (countyid_from_city s now city st row
        http now2).state.last_request_time = s.last_request_time) := by
  constructor
  · intro hgate
    have hc := checkTime_pass s now hgate
    refine ⟨?_, ?_, ?_, ?_⟩
    · intro body
      rcases body with msg | county
      · simp [countyid_from_city, hc]
      · rcases htok : reSearchToken county with _ | tok <;>
          simp [countyid_from_city, hc, htok]
    · intro msg
      simp [countyid_from_city, hc]
    · intro status body hne
      simp [countyid_from_city, hc, hne]
    · intro http
      simp [countyid_from_city, hc]
  · intro hlt
    intro row http
    have hc : checkTime s now =
        .error (.rateLimitError (s.request_cooldown - (now - s.last_request_time))) := by
      rw [checkTime, if_pos hlt]
    simp [countyid_from_city, hc]

/-- Witness for the amended C6: a 200 response with an unparseable body
still moves `last_request_time` to the response time, and a network error
leaves it unchanged. -/
theorem record_success_timing_witness :
    (countyid_from_city ⟨0, 0, 10⟩ 20 "Lansing" "MI" (some (42, -84))
      (.resp 200 (.error "boom")) 21).state.last_request_time = 21 ∧
    (countyid_from_city ⟨0, 0, 10⟩ 20 "Lansing" "MI" (some (42, -84))
      (.netError "timeout") 21).state.last_request_time = 0 :=
  ⟨((record_success_timing ⟨0, 0, 10⟩ 20 21 "Lansing" "MI" 42 (-84)).1
      (by norm_num)).1 (.error "boom"),
   ((record_success_timing ⟨0, 0, 10⟩ 20 21 "Lansing" "MI" 42 (-84)).1
      (by norm_num)).2.1 "timeout"⟩

/-- C9: for every alert feature the classifier classifies without raising,
at most one of the four severity flags is set. -/
theorem classify_at_most_one_flag (f : AlertFeature) (fl : Flags)
    (h : classifyFlags f = some fl) : flagCount fl ≤ 1 := by
  unfold classifyFlags at h
  repeat' split at h
  all_goals first
    | (rw [Option.some_inj] at h; subst h; decide)
    | simp at h

/-- Witness for C9 at a PDS tornado warning feature, whose flag vector is
`pds_tor` only. -/
theorem classify_at_most_one_flag_witness :
    flagCount ⟨true, false, false, false⟩ ≤ 1 :=
  classify_at_most_one_flag
    ⟨"o".toList, "e".toList, "Tornado Warning".toList,
      "a particularly dangerous situation is unfolding".toList, []⟩
    ⟨true, false, false, false⟩ (by decide)

/-- C3: the embed title of every classified alert is chosen in the fixed
priority order tornado emergency, PDS tornado, destructive severe
thunderstorm, flash flood emergency, original headline. -/
theorem title_priority_order (f : AlertFeature) (fl : Flags) (ca : ClassifiedAlert)
    (hfl : classifyFlags f = some fl) (hca : classifyAlert f = some ca) :
    (fl.emergency_tor = true → ca.title = .tornadoEmergency) ∧
    (fl.emergency_tor = false → fl.pds_tor = true → ca.title = .pdsTornado) ∧
    (fl.emergency_tor = false → fl.pds_tor = false → fl.destructive_tstorm = true →
      ca.title = .destructiveStorm) ∧
    (fl.emergency_tor = false → fl.pds_tor = false → fl.destructive_tstorm = false →
      fl.emergency_flood = true → ca.title = .floodEmergency) ∧
    (fl.emergency_tor = false → fl.pds_tor = false → fl.destructive_tstorm = false →
      fl.emergency_flood = false → ca.title = .original f.headline) := by
  have hc : ca = ⟨embedTitle fl f.headline, f.description, embedColor fl, f.onset, f.expires⟩ := by
    rw [classifyAlert, hfl] at hca
    simpa using hca.symm
  subst hc
  rcases fl with ⟨p, e, d, fd⟩
  cases p <;> cases e <;> cases d <;> cases fd <;> simp [embedTitle]

/-- Witness for C3 at a destructive severe thunderstorm warning: with only
`destructive_tstorm` set, the title is the destructive-storm override. -/
theorem title_priority_order_witness :
    (⟨.destructiveStorm, "winds".toList, 0xffa500, "o".toList, "e".toList⟩
      : ClassifiedAlert).title = .destructiveStorm :=
  (title_priority_order
    ⟨"o".toList, "e".toList, "Severe Thunderstorm Warning".toList, "winds".toList,
      [("damageThreat".toList, ["Destructive".toList])]⟩
    ⟨false, false, true, false⟩
    ⟨.destructiveStorm, "winds".toList, 0xffa500, "o".toList, "e".toList⟩
    (by decide) (by decide)).2.2.1 rfl rfl rfl

/-- C2 counterexample: a tornado-warning feature without the PDS phrase
whose `NWSheadline` first value contains the substring `emergency` (after
an earlier `warning`) gets NO flag set, contradicting the claimed
"contains emergency iff emergencyTor" equivalence; the conjuncts exhibit
the claim's premises (tornado watch/warning category matched, no PDS
phrase, `emergency` contained in the lower-cased parameter value). -/
theorem tornado_emergency_substring_counterexample :
    classifyFlags
      ⟨"o".toList, "e".toList, "Tornado Warning".toList, "take cover now".toList,
        [("NWSheadline".toList,
          ["this tornado warning is now a tornado emergency".toList])]⟩
      = some ⟨false, false, false, false⟩ ∧
    searchWatchWarning (lowerStr "Tornado Warning".toList) =
      some "tornado warning".toList ∧
    containsSub "tornado".toList (lowerStr "tornado warning".toList) = true ∧
    containsSub "particularly dangerous situation".toList
      (lowerStr "take cover now".toList) = false ∧
    containsSub "emergency".toList
      (lowerStr "this tornado warning is now a tornado emergency".toList) = true := by
  decide

/-- C2 amended: for a feature in the tornado watch/warning category without
the PDS phrase and with an extant `NWSheadline` first value, the
`emergency_tor` flag is set exactly when the lower-cased value contains
`emergency` with its first occurrence strictly before every occurrence of
`warning` (the first match of the `(warning|emergency)` alternation being
`emergency`); a value containing `warning` only, or `warning` before
`emergency`, sets no flag. -/
theorem tornado_emergency_first_match (f : AlertFeature) (at0 v : List Char) (fl : Flags)
    (hmatch : searchWatchWarning (lowerStr f.headline) = some at0)
    (htor : containsSub "tornado".toList (lowerStr at0) = true)
    (hpds : containsSub "particularly dangerous situation".toList
      (lowerStr f.description) = false)
    (hv : paramFirst f.parameters "NWSheadline".toList [[]] = some v)
    (hfl : classifyFlags f = some fl) :
    fl.emergency_tor = emergencyFirst (lowerStr v) := by
  unfold classifyFlags at hfl
  rw [hmatch] at hfl
  simp only [htor, hpds, hv, if_true, Bool.false_eq_true, if_false] at hfl
  rcases hse : searchWarnEmerg (lowerStr v) with _ | m
  · rw [hse] at hfl
    have hfl' : fl = ⟨false, false, false, false⟩ := by simpa using hfl.symm
    have hef : emergencyFirst (lowerStr v) = false := by
      rcases hb : emergencyFirst (lowerStr v)
      · rfl
      · exact absurd ((searchWarnEmerg_emergency_iff _).mpr hb)
          (by rw [hse]; simp)
    rw [hfl', hef]
  · simp only [hse] at hfl
    rcases searchWarnEmerg_eq_some _ _ hse with hm | hm
    · subst hm
      rw [if_neg (by decide : ¬containsSub emergencyLit (lowerStr warningLit) = true)] at hfl
      have hfl' : fl = ⟨false, false, false, false⟩ := by simpa using hfl.symm
      have hef : emergencyFirst (lowerStr v) = false := by
        rcases hb : emergencyFirst (lowerStr v)
        · rfl
        · have := (searchWarnEmerg_emergency_iff _).mpr hb
          rw [hse] at this
          exact absurd (Option.some_inj.mp this) (by decide)
      rw [hfl', hef]
    · subst hm
      rw [if_pos (by decide : containsSub emergencyLit (lowerStr emergencyLit) = true)] at hfl
      have hfl' : fl = ⟨false, true, false, false⟩ := by simpa using hfl.symm
      have hef : emergencyFirst (lowerStr v) = true :=
        (searchWarnEmerg_emergency_iff _).mp hse
      rw [hfl', hef]

/-- Witness for the amended C2 at the warning-before-emergency value: the
first alternation match is `warning`, so the flag stays false, agreeing
with `emergencyFirst` being false. -/
theorem tornado_emergency_first_match_witness :
    (⟨false, false, false, false⟩ : Flags).emergency_tor =
      emergencyFirst
        (lowerStr "this tornado warning is now a tornado emergency".toList) :=
  tornado_emergency_first_match
    ⟨"o".toList, "e".toList, "Tornado Warning".toList, "take cover now".toList,
      [("NWSheadline".toList,
        ["this tornado warning is now a tornado emergency".toList])]⟩
    "tornado warning".toList
    "this tornado warning is now a tornado emergency".toList
    ⟨false, false, false, false⟩
    (by decide) (by decide) (by decide) (by decide) (by decide)
